import Mathlib

/-!
Verification of the two retrieval routines of `src/Medical_Agent/main.py`:
`retrieve_medical_data` (the Evidence Retriever) and `get_nearby_pharmacies`
(the Pharmacy Locator).  External services (the DDGS search call, the HTTP
page fetch plus HTML paragraph extraction) are passed in as explicit
function parameters, so the routines themselves are modelled faithfully as
pure functions over those environments.
-/

/-- A search-service result record: a Python dict that may or may not carry
the "title" and "href" keys (other keys are irrelevant to both routines). -/
structure SearchResult where
  title : Option String
  href : Option String
deriving DecidableEq

/-- Python string slicing s[:n]: the first n characters of s. -/
def strTrunc (s : String) (n : Nat) : String :=
  ⟨s.data.take n⟩

/-- listStartsWith pat l: pat is a leading segment of l. -/
def listStartsWith : List Char → List Char → Bool
  | [], _ => true
  | _ :: _, [] => false
  | p :: ps, c :: cs => p == c && listStartsWith ps cs

/-- listHasSub pat l: pat occurs as a contiguous segment of l. -/
def listHasSub (pat : List Char) : List Char → Bool
  | [] => listStartsWith pat []
  | c :: cs => listStartsWith pat (c :: cs) || listHasSub pat cs

/-- Python membership test `pat in s` on strings: substring occurrence. -/
def strHasSub (s pat : String) : Bool :=
  listHasSub pat.data s.data

/-- The rate-limit marker `get_nearby_pharmacies` looks for in the textual
description of a DuckDuckGoSearchException. -/
def rlMarker : String := "202 Ratelimit"

/-- The search query built by `retrieve_medical_data`: the condition string
plus the fixed site-restriction clause. -/
def medicalQuery (query : String) : String :=
  query ++ " site:mayoclinic.org OR site:medlineplus.gov OR site:who.int"

/-- One iteration of the for-loop body of `retrieve_medical_data` (the try
block): look up res["href"] (a KeyError when the key is absent is swallowed
by the except clause), fetch and parse the page (`fetchParas url = none`
models any requests/BeautifulSoup failure during fetch or extraction,
`some ps` the list of texts of the p elements of the page), space-join the
paragraph texts, and keep (text[:2000], url) when the joined text is
non-empty.  `none` means this result is skipped. -/
def processResult (fetchParas : String → Option (List String)) (res : SearchResult) :
    Option (String × String) :=
  match res.href with
  | none => none
  | some url =>
    match fetchParas url with
    | none => none
    | some ps =>
      let text := String.intercalate " " ps
      if text = "" then none else some (strTrunc text 2000, url)

/-- The accumulation loop of `retrieve_medical_data`: docs.append and
sources.append, walking the search results in retrieval order. -/
def ragLoop (fetchParas : String → Option (List String)) :
    List SearchResult → List String → List String → List String × List String
  | [], docs, sources => (docs, sources)
  | res :: rest, docs, sources =>
    match processResult fetchParas res with
    | some (d, u) => ragLoop fetchParas rest (docs ++ [d]) (sources ++ [u])
    | none => ragLoop fetchParas rest docs sources

/-- `retrieve_medical_data`.  `ddgsText` is the DDGS().text search call:
`.error e` models the call raising an exception with description e — note
that the call sits outside the per-result try block, so such an exception
is not caught inside the function; `.ok results` is a returned result
list.  On success the function joins the collected excerpts with a blank
line and returns them with the parallel source list. -/
def retrieve_medical_data (ddgsText : String → Except String (List SearchResult))
    (fetchParas : String → Option (List String)) (query : String) :
    Except String (String × List String) :=
  match ddgsText (medicalQuery query) with
  | .error e => .error e
  | .ok results =>
    let (docs, sources) := ragLoop fetchParas results [] []
    .ok (String.intercalate "\n\n" docs, sources)

/-- Outcome of one DDGS().text call inside `get_nearby_pharmacies`:
success with a result list, a DuckDuckGoSearchException whose str() is
msg, or an exception of any other type. -/
inductive SearchOutcome where
  | ok (results : List SearchResult)
  | ddgErr (msg : String)
  | otherErr
deriving DecidableEq

/-- The comprehension building the return value of `get_nearby_pharmacies`:
records without an "href" key are filtered out; a kept record lacking a
"title" key raises KeyError, modelled as `none` (the whole list is then
discarded by the generic except handler). -/
def buildEntries : List SearchResult → Option (List (String × String))
  | [] => some []
  | r :: rs =>
    match r.href with
    | none => buildEntries rs
    | some h =>
      match r.title with
      | none => none
      | some t => (buildEntries rs).map (fun es => (t, h) :: es)

/-- The observable behaviour of one `get_nearby_pharmacies` call: the
returned list, the time.sleep durations in order, and how many search
attempts were made. -/
structure PharmacyRun where
  result : List (String × String)
  sleeps : List ℚ
  attemptsMade : Nat
deriving DecidableEq

/-- The `for attempt in range(retries)` loop of `get_nearby_pharmacies`,
recursing on the remaining iterations while tracking the current attempt
index.  A successful search returns the built entries at once (or [] when
building them raises KeyError, via the generic except-break).  A
DuckDuckGoSearchException whose description contains the rate-limit
marker sleeps delay*(attempt+1) and retries; any other description, or
any other exception type, breaks out.  Falling off the loop returns []. -/
def pharmacyLoop (search : Nat → SearchOutcome) (delay : ℚ) :
    Nat → Nat → PharmacyRun
  | _, 0 => ⟨[], [], 0⟩
  | attempt, remaining + 1 =>
    match search attempt with
    | .ok results =>
      match buildEntries results with
      | some es => ⟨es, [], 1⟩
      | none => ⟨[], [], 1⟩
    | .ddgErr msg =>
      if strHasSub msg rlMarker then
        let rest := pharmacyLoop search delay (attempt + 1) remaining
        ⟨rest.result, delay * (attempt + 1) :: rest.sleeps, rest.attemptsMade + 1⟩
      else ⟨[], [], 1⟩
    | .otherErr => ⟨[], [], 1⟩

/-- The query template of `get_nearby_pharmacies`. -/
def pharmacyQuery (location : String) : String :=
  "pharmacies near " ++ location

/-- `get_nearby_pharmacies`: run the retry loop on the location query.
`ddgsText` maps a query string and the attempt index to the outcome of
that attempt.  The Python defaults are retries = 3 and delay = 2. -/
def get_nearby_pharmacies (ddgsText : String → Nat → SearchOutcome)
    (location : String) (retries : Nat) (delay : ℚ) : PharmacyRun :=
  pharmacyLoop (ddgsText (pharmacyQuery location)) delay 0 retries

/-- Unfolding lemma for one loop iteration of `pharmacyLoop`. -/
theorem pharmacyLoop_succ (search : Nat → SearchOutcome) (delay : ℚ)
    (attempt remaining : Nat) :
    pharmacyLoop search delay attempt (remaining + 1) =
      match search attempt with
      | .ok results =>
        match buildEntries results with
        | some es => ⟨es, [], 1⟩
        | none => ⟨[], [], 1⟩
      | .ddgErr msg =>
        if strHasSub msg rlMarker then
          let rest := pharmacyLoop search delay (attempt + 1) remaining
          ⟨rest.result, delay * (attempt + 1) :: rest.sleeps, rest.attemptsMade + 1⟩
        else ⟨[], [], 1⟩
      | .otherErr => ⟨[], [], 1⟩ := rfl

/-- The accumulation loop is append of the filterMap of the per-result step:
docs and sources grow in retrieval order, one entry per kept result. -/
theorem ragLoop_eq (fetchParas : String → Option (List String))
    (l : List SearchResult) (docs sources : List String) :
    ragLoop fetchParas l docs sources =
      (docs ++ (l.filterMap (processResult fetchParas)).map Prod.fst,
       sources ++ (l.filterMap (processResult fetchParas)).map Prod.snd) := by
  induction l generalizing docs sources with
  | nil => simp [ragLoop]
  | cons res rest ih =>
    cases h : processResult fetchParas res with
    | none => simp [ragLoop, h, ih]
    | some p =>
      cases p with
      | mk d u => simp [ragLoop, h, ih]

/-- Concrete fetch environment in which every page fetch fails. -/
def failFetch : String → Option (List String) := fun _ => none

/-- A search call that raises: str(e) is the given description. -/
def errSearch : String → Except String (List SearchResult) :=
  fun _ => .error "DuckDuckGoSearchException: timed out"

/-- C1, counterexample: when the search call itself raises, the exception
propagates out of retrieve_medical_data instead of the claimed ("", [])
result — the search call sits outside the per-result try block. -/
theorem retrieve_search_error_escapes :
    retrieve_medical_data errSearch failFetch "flu" ≠ .ok ("", []) := by
  simp [retrieve_medical_data, errSearch]

/-- C1, amended: when the search call itself succeeds but zero page
extractions succeed (each returned result fails to fetch or parse, lacks
an href, or yields empty text), retrieve_medical_data returns ("", []):
the per-result failures are swallowed and no exception escapes.  A failure
of the search call itself, by contrast, does propagate. -/
theorem retrieve_total_failure_empty
    (ddgsText : String → Except String (List SearchResult))
    (fetchParas : String → Option (List String)) (query : String)
    (results : List SearchResult)
    (hs : ddgsText (medicalQuery query) = .ok results)
    (hall : ∀ res ∈ results, processResult fetchParas res = none) :
    retrieve_medical_data ddgsText fetchParas query = .ok ("", []) := by
  have hnil : results.filterMap (processResult fetchParas) = [] :=
    List.filterMap_eq_nil_iff.mpr hall
  simp only [retrieve_medical_data, hs, ragLoop_eq, hnil, List.map_nil,
    List.append_nil]
  rfl

/-- Search stub for the total-failure scenario: two results, one without an
href and one whose page fetch will fail. -/
def c1Search : String → Except String (List SearchResult) :=
  fun _ => .ok [⟨some "NoLink", none⟩, ⟨some "DeadLink", some "u"⟩]

/-- Witness for retrieve_total_failure_empty at a concrete input. -/
theorem retrieve_total_failure_empty_witness :
    retrieve_medical_data c1Search failFetch "flu" = .ok ("", []) :=
  retrieve_total_failure_empty c1Search failFetch "flu"
    [⟨some "NoLink", none⟩, ⟨some "DeadLink", some "u"⟩] rfl (by decide)

/-- C5: on a successful search the evidence text is the "\n\n"-joined
concatenation of the kept excerpts in retrieval order, the sources list is
the parallel list of their originating URLs, and the two have equal
length: one source per included excerpt, in the same order. -/
theorem retrieve_text_sources_parallel
    (ddgsText : String → Except String (List SearchResult))
    (fetchParas : String → Option (List String)) (query : String)
    (results : List SearchResult)
    (hs : ddgsText (medicalQuery query) = .ok results) :
    retrieve_medical_data ddgsText fetchParas query =
      .ok (String.intercalate "\n\n"
             ((results.filterMap (processResult fetchParas)).map Prod.fst),
           (results.filterMap (processResult fetchParas)).map Prod.snd) ∧
    ((results.filterMap (processResult fetchParas)).map Prod.fst).length =
      ((results.filterMap (processResult fetchParas)).map Prod.snd).length := by
  constructor
  · simp only [retrieve_medical_data, hs, ragLoop_eq, List.nil_append]
  · simp

/-- Fetch environment returning one short paragraph for every page. -/
def hiFetch : String → Option (List String) := fun _ => some ["hi"]

/-- Search stub returning a single complete result. -/
def oneSearch : String → Except String (List SearchResult) :=
  fun _ => .ok [⟨some "T", some "u"⟩]

/-- Witness for retrieve_text_sources_parallel at a concrete input. -/
theorem retrieve_text_sources_parallel_witness :
    retrieve_medical_data oneSearch hiFetch "flu" =
      .ok (String.intercalate "\n\n"
             ((([⟨some "T", some "u"⟩] : List SearchResult).filterMap
                 (processResult hiFetch)).map Prod.fst),
           (([⟨some "T", some "u"⟩] : List SearchResult).filterMap
               (processResult hiFetch)).map Prod.snd) ∧
    ((([⟨some "T", some "u"⟩] : List SearchResult).filterMap
        (processResult hiFetch)).map Prod.fst).length =
      ((([⟨some "T", some "u"⟩] : List SearchResult).filterMap
          (processResult hiFetch)).map Prod.snd).length :=
  retrieve_text_sources_parallel oneSearch hiFetch "flu" [⟨some "T", some "u"⟩] rfl

/-- Truncation to n characters never yields more than n characters. -/
theorem strTrunc_length_le (s : String) (n : Nat) : (strTrunc s n).length ≤ n := by
  show (s.data.take n).length ≤ n
  exact List.length_take_le n s.data

/-- Characterisation of a kept result: it has an href, its page fetch and
extraction succeed, the joined paragraph text is non-empty, and the kept
pair is the truncated text with that url. -/
theorem processResult_some (fetchParas : String → Option (List String))
    (res : SearchResult) (p : String × String)
    (h : processResult fetchParas res = some p) :
    ∃ url ps, res.href = some url ∧ fetchParas url = some ps ∧
      String.intercalate " " ps ≠ "" ∧
      p = (strTrunc (String.intercalate " " ps) 2000, url) := by
  dsimp only [processResult] at h
  split at h
  · exact absurd h (by simp)
  next url hr =>
    split at h
    · exact absurd h (by simp)
    next ps hf =>
      split at h
      · exact absurd h (by simp)
      next hne => exact ⟨url, ps, hr, hf, hne, (Option.some.inj h).symm⟩

/-- C6: on a successful search the evidence text is the join of the
accumulated excerpts, and every accumulated excerpt has length at most
2000 characters (per-page truncation before inclusion). -/
theorem retrieve_excerpt_le_2000
    (ddgsText : String → Except String (List SearchResult))
    (fetchParas : String → Option (List String)) (query : String)
    (results : List SearchResult) (excerpt : String)
    (hs : ddgsText (medicalQuery query) = .ok results)
    (hx : excerpt ∈ (ragLoop fetchParas results [] []).1) :
    retrieve_medical_data ddgsText fetchParas query =
      .ok (String.intercalate "\n\n" (ragLoop fetchParas results [] []).1,
           (ragLoop fetchParas results [] []).2) ∧
    excerpt.length ≤ 2000 := by
  constructor
  · simp [retrieve_medical_data, hs, ragLoop_eq]
  · rw [ragLoop_eq] at hx
    simp only [List.nil_append, List.mem_map] at hx
    obtain ⟨p, hp, rfl⟩ := hx
    obtain ⟨res, _, hsome⟩ := List.mem_filterMap.mp hp
    obtain ⟨url, ps, _, _, _, rfl⟩ := processResult_some fetchParas res p hsome
    exact strTrunc_length_le _ _

/-- Witness for retrieve_excerpt_le_2000 at a concrete input. -/
theorem retrieve_excerpt_le_2000_witness :
    (retrieve_medical_data oneSearch hiFetch "flu" =
      .ok (String.intercalate "\n\n"
             (ragLoop hiFetch [⟨some "T", some "u"⟩] [] []).1,
           (ragLoop hiFetch [⟨some "T", some "u"⟩] [] []).2) ∧
    ("hi" : String).length ≤ 2000) :=
  retrieve_excerpt_le_2000 oneSearch hiFetch "flu" [⟨some "T", some "u"⟩] "hi"
    rfl (by decide)

/-- C7: a result whose page fetch (or parse) fails is swallowed and merely
skipped: the run on a result list containing that failing result is
identical to the run on the list with it removed — the remaining results
are still processed and the failing result contributes neither an excerpt
nor a source entry. -/
theorem retrieve_skips_failed_result
    (fetchParas : String → Option (List String)) (query url : String)
    (pre post : List SearchResult) (bad : SearchResult)
    (hhref : bad.href = some url) (hfail : fetchParas url = none) :
    retrieve_medical_data (fun _ => .ok (pre ++ bad :: post)) fetchParas query =
      retrieve_medical_data (fun _ => .ok (pre ++ post)) fetchParas query := by
  have hbad : processResult fetchParas bad = none := by
    simp [processResult, hhref, hfail]
  simp only [retrieve_medical_data]
  rw [ragLoop_eq, ragLoop_eq]
  simp [List.filterMap_append, List.filterMap_cons, hbad]

/-- Fetch environment where the page at "bad" fails and every other page
yields one paragraph. -/
def c7fetch : String → Option (List String) :=
  fun u => if u = "bad" then none else some ["x"]

/-- Witness for retrieve_skips_failed_result at a concrete input. -/
theorem retrieve_skips_failed_result_witness :
    retrieve_medical_data
        (fun _ => .ok ([⟨some "A", some "u1"⟩] ++
          (⟨some "C", some "bad"⟩ : SearchResult) :: [⟨some "B", some "u2"⟩]))
        c7fetch "flu" =
      retrieve_medical_data
        (fun _ => .ok ([⟨some "A", some "u1"⟩] ++ [⟨some "B", some "u2"⟩]))
        c7fetch "flu" :=
  retrieve_skips_failed_result c7fetch "flu" "bad"
    [⟨some "A", some "u1"⟩] [⟨some "B", some "u2"⟩] ⟨some "C", some "bad"⟩
    rfl (by decide)

/-- A rate-limited attempt sleeps delay*(attempt+1) and retries. -/
theorem pharmacyLoop_ratelimit (search : Nat → SearchOutcome) (delay : ℚ)
    (attempt remaining : Nat) (m : String)
    (h : search attempt = .ddgErr m) (hm : strHasSub m rlMarker = true) :
    pharmacyLoop search delay attempt (remaining + 1) =
      ⟨(pharmacyLoop search delay (attempt + 1) remaining).result,
       delay * (attempt + 1) ::
         (pharmacyLoop search delay (attempt + 1) remaining).sleeps,
       (pharmacyLoop search delay (attempt + 1) remaining).attemptsMade + 1⟩ := by
  rw [pharmacyLoop_succ, h]
  simp [hm]

/-- A successful attempt with a well-formed result list returns at once. -/
theorem pharmacyLoop_ok (search : Nat → SearchOutcome) (delay : ℚ)
    (attempt remaining : Nat) (results : List SearchResult)
    (entries : List (String × String))
    (h : search attempt = .ok results) (hE : buildEntries results = some entries) :
    pharmacyLoop search delay attempt (remaining + 1) = ⟨entries, [], 1⟩ := by
  rw [pharmacyLoop_succ, h]
  simp [hE]

/-- Shifting the backoff schedule by one attempt. -/
theorem sleeps_shift (delay : ℚ) (attempt r : Nat) :
    delay * ((attempt : ℚ) + 1) ::
      (List.range r).map
        (fun (i : Nat) => delay * (((attempt + 1 : Nat) : ℚ) + (i : ℚ) + 1)) =
      (List.range (r + 1)).map
        (fun (i : Nat) => delay * ((attempt : ℚ) + (i : ℚ) + 1)) := by
  rw [List.range_succ_eq_map, List.map_cons, List.map_map]
  refine congrArg₂ List.cons (by push_cast; ring) (List.map_congr_left ?_)
  intro a _
  simp only [Function.comp_apply]
  push_cast
  ring

/-- If every attempt from `attempt` on (for `remaining` iterations) raises a
rate-limit error, the loop returns [] after sleeping once per attempt —
including after the final one — with durations delay*(attempt+i+1). -/
theorem pharmacyLoop_all_ratelimit (search : Nat → SearchOutcome) (delay : ℚ)
    (remaining : Nat) :
    ∀ attempt : Nat,
      (∀ n, n < remaining → ∃ m, search (attempt + n) = .ddgErr m ∧
        strHasSub m rlMarker = true) →
      pharmacyLoop search delay attempt remaining =
        ⟨[], (List.range remaining).map
           (fun (i : Nat) => delay * ((attempt : ℚ) + (i : ℚ) + 1)),
         remaining⟩ := by
  induction remaining with
  | zero => intro attempt _; rfl
  | succ r ih =>
    intro attempt hall
    obtain ⟨m, hm, hmm⟩ := hall 0 (Nat.succ_pos _)
    rw [Nat.add_zero] at hm
    rw [pharmacyLoop_ratelimit search delay attempt r m hm hmm]
    rw [ih (attempt + 1) (fun n hn => by
      obtain ⟨m2, h2, hm2⟩ := hall (n + 1) (Nat.succ_lt_succ hn)
      exact ⟨m2, by rwa [Nat.add_comm n 1, ← Nat.add_assoc] at h2, hm2⟩)]
    dsimp only
    rw [sleeps_shift]

/-- C2: when the search raises a rate-limit error on attempts 1 and 2 and
succeeds on attempt 3 with a well-formed result list, the call (with
retries = 3) returns the successful result set, having slept exactly twice
with durations delay*1 then delay*2, over 3 attempts. -/
theorem pharmacies_retry_then_success
    (ddgsText : String → Nat → SearchOutcome) (location : String) (delay : ℚ)
    (m0 m1 : String) (results : List SearchResult)
    (entries : List (String × String))
    (h0 : ddgsText (pharmacyQuery location) 0 = .ddgErr m0)
    (hm0 : strHasSub m0 rlMarker = true)
    (h1 : ddgsText (pharmacyQuery location) 1 = .ddgErr m1)
    (hm1 : strHasSub m1 rlMarker = true)
    (h2 : ddgsText (pharmacyQuery location) 2 = .ok results)
    (hE : buildEntries results = some entries) :
    get_nearby_pharmacies ddgsText location 3 delay =
      ⟨entries, [delay * 1, delay * 2], 3⟩ := by
  have s0 := pharmacyLoop_ratelimit (ddgsText (pharmacyQuery location)) delay
    0 2 m0 h0 hm0
  have s1 := pharmacyLoop_ratelimit (ddgsText (pharmacyQuery location)) delay
    1 1 m1 h1 hm1
  have s2 := pharmacyLoop_ok (ddgsText (pharmacyQuery location)) delay
    2 0 results entries h2 hE
  norm_num at s0 s1 s2
  unfold get_nearby_pharmacies
  rw [show (3 : Nat) = 2 + 1 from rfl] at s0 ⊢
  rw [s0, s1, s2]
  norm_num

/-- Search stub: rate-limit errors on the first two attempts, success on the
third. -/
def c2stub : String → Nat → SearchOutcome :=
  fun _ n =>
    if n = 0 then .ddgErr "202 Ratelimit"
    else if n = 1 then .ddgErr "error: 202 Ratelimit hit"
    else .ok [⟨some "Pharma One", some "link1"⟩]

/-- Witness for pharmacies_retry_then_success at a concrete input. -/
theorem pharmacies_retry_then_success_witness :
    get_nearby_pharmacies c2stub "Delhi" 3 2 =
      ⟨[("Pharma One", "link1")], [2 * 1, 2 * 2], 3⟩ :=
  pharmacies_retry_then_success c2stub "Delhi" 2 "202 Ratelimit"
    "error: 202 Ratelimit hit" [⟨some "Pharma One", some "link1"⟩]
    [("Pharma One", "link1")] rfl (by decide) rfl (by decide) rfl rfl

/-- C3: with retries = 3 and every attempt raising the rate-limit error, the
call makes exactly 3 search attempts and then returns [] rather than
raising. -/
theorem pharmacies_exhaust_three
    (ddgsText : String → Nat → SearchOutcome) (location : String) (delay : ℚ)
    (hall : ∀ n, n < 3 → ∃ m, ddgsText (pharmacyQuery location) n = .ddgErr m ∧
      strHasSub m rlMarker = true) :
    (get_nearby_pharmacies ddgsText location 3 delay).result = [] ∧
    (get_nearby_pharmacies ddgsText location 3 delay).attemptsMade = 3 := by
  unfold get_nearby_pharmacies
  rw [pharmacyLoop_all_ratelimit (ddgsText (pharmacyQuery location)) delay 3 0
    (fun n hn => by simpa using hall n hn)]
  exact ⟨rfl, rfl⟩

/-- Search stub that raises the rate-limit error on every attempt. -/
def rlStub : String → Nat → SearchOutcome := fun _ _ => .ddgErr "202 Ratelimit"

/-- Witness for pharmacies_exhaust_three at a concrete input. -/
theorem pharmacies_exhaust_three_witness :
    (get_nearby_pharmacies rlStub "Delhi" 3 2).result = [] ∧
    (get_nearby_pharmacies rlStub "Delhi" 3 2).attemptsMade = 3 :=
  pharmacies_exhaust_three rlStub "Delhi" 2
    (fun _ _ => ⟨"202 Ratelimit", rfl, by decide⟩)

/-- C4: when the first attempt raises an error that is not the rate-limit
one — a DuckDuckGoSearchException whose description lacks the marker, or
an exception of any other type — the call returns [] at once: one attempt,
zero sleeps. -/
theorem pharmacies_abort_non_ratelimit
    (ddgsText : String → Nat → SearchOutcome) (location : String)
    (retries : Nat) (delay : ℚ) (hr : 0 < retries)
    (h : (∃ m, ddgsText (pharmacyQuery location) 0 = .ddgErr m ∧
            strHasSub m rlMarker = false) ∨
         ddgsText (pharmacyQuery location) 0 = .otherErr) :
    get_nearby_pharmacies ddgsText location retries delay = ⟨[], [], 1⟩ := by
  obtain ⟨k, rfl⟩ : ∃ k, retries = k + 1 :=
    ⟨retries - 1, (Nat.succ_pred_eq_of_pos hr).symm⟩
  unfold get_nearby_pharmacies
  rcases h with ⟨m, hm, hmm⟩ | h
  · rw [pharmacyLoop_succ, hm]
    simp [hmm]
  · rw [pharmacyLoop_succ, h]

/-- Search stub raising a non-rate-limit DuckDuckGoSearchException. -/
def otherErrStub : String → Nat → SearchOutcome :=
  fun _ _ => .ddgErr "403 Forbidden"

/-- Witness for pharmacies_abort_non_ratelimit at a concrete input. -/
theorem pharmacies_abort_non_ratelimit_witness :
    get_nearby_pharmacies otherErrStub "Delhi" 3 2 = ⟨[], [], 1⟩ :=
  pharmacies_abort_non_ratelimit otherErrStub "Delhi" 3 2 (by decide)
    (Or.inl ⟨"403 Forbidden", rfl, by decide⟩)

/-- A result list containing a record with an href but no title makes the
whole comprehension raise KeyError. -/
theorem buildEntries_none_of_missing_title (results : List SearchResult)
    (r : SearchResult) (hmem : r ∈ results) (hhref : r.href.isSome = true)
    (htitle : r.title = none) :
    buildEntries results = none := by
  induction results with
  | nil => cases hmem
  | cons a rest ih =>
    rcases List.mem_cons.mp hmem with rfl | hm2
    · obtain ⟨u, hu⟩ := Option.isSome_iff_exists.mp hhref
      simp [buildEntries, hu, htitle]
    · dsimp only [buildEntries]
      cases ha : a.href with
      | none => exact ih hm2
      | some h =>
        cases hat : a.title with
        | none => rfl
        | some t => simp [ih hm2]

/-- C9: if the search succeeds on the first attempt but some returned
record carries an "href" key and no "title" key, the KeyError raised while
building the pairs is caught by the generic handler and the whole call
returns [] — no partial list of the other valid results. -/
theorem pharmacies_missing_title_aborts
    (ddgsText : String → Nat → SearchOutcome) (location : String)
    (retries : Nat) (delay : ℚ) (hr : 0 < retries)
    (results : List SearchResult) (r : SearchResult)
    (h0 : ddgsText (pharmacyQuery location) 0 = .ok results)
    (hmem : r ∈ results) (hhref : r.href.isSome = true)
    (htitle : r.title = none) :
    get_nearby_pharmacies ddgsText location retries delay = ⟨[], [], 1⟩ := by
  obtain ⟨k, rfl⟩ : ∃ k, retries = k + 1 :=
    ⟨retries - 1, (Nat.succ_pred_eq_of_pos hr).symm⟩
  unfold get_nearby_pharmacies
  rw [pharmacyLoop_succ, h0]
  simp [buildEntries_none_of_missing_title results r hmem hhref htitle]

/-- Search stub returning one valid record and one record lacking a title. -/
def badTitleStub : String → Nat → SearchOutcome :=
  fun _ _ => .ok [⟨some "Good Pharmacy", some "l1"⟩, ⟨none, some "l2"⟩]

/-- Witness for pharmacies_missing_title_aborts at a concrete input. -/
theorem pharmacies_missing_title_aborts_witness :
    get_nearby_pharmacies badTitleStub "Delhi" 3 2 = ⟨[], [], 1⟩ :=
  pharmacies_missing_title_aborts badTitleStub "Delhi" 3 2 (by decide)
    [⟨some "Good Pharmacy", some "l1"⟩, ⟨none, some "l2"⟩] ⟨none, some "l2"⟩
    rfl (by decide) (by decide) rfl

/-- C10: when every attempt raises the rate-limit error, the loop sleeps
after the final failed attempt too: with `retries` attempts the call makes
exactly `retries` attempts and exactly `retries` sleeps, with durations
delay*1, delay*2, ..., delay*retries, before returning []. -/
theorem pharmacies_sleep_each_attempt
    (ddgsText : String → Nat → SearchOutcome) (location : String)
    (retries : Nat) (delay : ℚ)
    (hall : ∀ n, n < retries → ∃ m,
      ddgsText (pharmacyQuery location) n = .ddgErr m ∧
      strHasSub m rlMarker = true) :
    get_nearby_pharmacies ddgsText location retries delay =
      ⟨[], (List.range retries).map (fun (i : Nat) => delay * ((i : ℚ) + 1)),
       retries⟩ := by
  unfold get_nearby_pharmacies
  rw [pharmacyLoop_all_ratelimit (ddgsText (pharmacyQuery location)) delay
    retries 0 (fun n hn => by simpa using hall n hn)]
  norm_num

/-- Witness for pharmacies_sleep_each_attempt at a concrete input. -/
theorem pharmacies_sleep_each_attempt_witness :
    get_nearby_pharmacies rlStub "Pune" 2 1 =
      ⟨[], (List.range 2).map (fun (i : Nat) => 1 * ((i : ℚ) + 1)), 2⟩ :=
  pharmacies_sleep_each_attempt rlStub "Pune" 2 1
    (fun _ _ => ⟨"202 Ratelimit", rfl, by decide⟩)

/-- Equality of modelled call outcomes is decidable. -/
instance exceptDecEq {ε α : Type} [DecidableEq ε] [DecidableEq α] :
    DecidableEq (Except ε α) := fun a b =>
  match a, b with
  | .error e, .error f =>
    match decEq e f with
    | isTrue h => isTrue (by rw [h])
    | isFalse h => isFalse (by intro hh; cases hh; exact h rfl)
  | .error _, .ok _ => isFalse (by intro hh; cases hh)
  | .ok _, .error _ => isFalse (by intro hh; cases hh)
  | .ok x, .ok y =>
    match decEq x y with
    | isTrue h => isTrue (by rw [h])
    | isFalse h => isFalse (by intro hh; cases hh; exact h rfl)

/-- Search stub for the end-to-end "flu" scenario: three results with
distinct URLs. -/
def c8Search : String → Except String (List SearchResult) :=
  fun _ => .ok [⟨some "T1", some "u1"⟩, ⟨some "T2", some "u2"⟩,
                ⟨some "T3", some "u3"⟩]

/-- Fetch environment for the "flu" scenario: each page yields one
non-empty paragraph. -/
def c8fetch : String → Option (List String) :=
  fun u => if u = "u1" then some ["a"] else if u = "u2" then some ["b"]
           else some ["c"]

/-- C8, counterexample: with condition "flu" and three results each
yielding non-empty paragraph text, the evidence text joins the per-page
excerpts with "\n\n", not with a space: the space-joined concatenation
claimed is not what the function returns. -/
theorem retrieve_flu_space_join_counterexample :
    retrieve_medical_data c8Search c8fetch "flu" =
      .ok ("a\n\nb\n\nc", ["u1", "u2", "u3"]) ∧
    retrieve_medical_data c8Search c8fetch "flu" ≠
      .ok (String.intercalate " " ["a", "b", "c"], ["u1", "u2", "u3"]) := by
  constructor
  · decide
  · decide

/-- C8, amended: end-to-end for condition "flu" with three search results
each yielding non-empty paragraph text, the evidence text is the
"\n\n"-joined concatenation of the three per-page excerpts — each excerpt
the space-joined paragraph texts of one page truncated at 2000 characters —
and the sources list has exactly the 3 URLs in input order. -/
theorem retrieve_flu_three_pages
    (ddgsText : String → Except String (List SearchResult))
    (fetchParas : String → Option (List String))
    (t1 t2 t3 : Option String) (u1 u2 u3 : String) (ps1 ps2 ps3 : List String)
    (hs : ddgsText (medicalQuery "flu") =
      .ok [⟨t1, some u1⟩, ⟨t2, some u2⟩, ⟨t3, some u3⟩])
    (h1 : fetchParas u1 = some ps1) (h2 : fetchParas u2 = some ps2)
    (h3 : fetchParas u3 = some ps3)
    (n1 : String.intercalate " " ps1 ≠ "")
    (n2 : String.intercalate " " ps2 ≠ "")
    (n3 : String.intercalate " " ps3 ≠ "") :
    retrieve_medical_data ddgsText fetchParas "flu" =
      .ok (String.intercalate "\n\n"
             [strTrunc (String.intercalate " " ps1) 2000,
              strTrunc (String.intercalate " " ps2) 2000,
              strTrunc (String.intercalate " " ps3) 2000],
           [u1, u2, u3]) := by
  simp only [retrieve_medical_data, hs, ragLoop_eq, List.nil_append]
  simp [List.filterMap_cons, processResult, h1, h2, h3, n1, n2, n3]

/-- Witness for retrieve_flu_three_pages at a concrete input. -/
theorem retrieve_flu_three_pages_witness :
    retrieve_medical_data c8Search c8fetch "flu" =
      .ok (String.intercalate "\n\n"
             [strTrunc (String.intercalate " " ["a"]) 2000,
              strTrunc (String.intercalate " " ["b"]) 2000,
              strTrunc (String.intercalate " " ["c"]) 2000],
           ["u1", "u2", "u3"]) :=
  retrieve_flu_three_pages c8Search c8fetch (some "T1") (some "T2") (some "T3")
    "u1" "u2" "u3" ["a"] ["b"] ["c"] rfl (by decide) (by decide) (by decide)
    (by decide) (by decide) (by decide)
